import Mathlib

/-!
Verification development for the TWISTER instrument-automation library.

The definitions below are shallow embeddings of the Python sources:
`oscilloscope_interface.py`, `signalgen_interface.py`,
`waveformgen_interface.py`, `twister_api/waveformgen_interface.py` and
`twister_utils.py`.  Machine integers are modelled as `Int` with explicit
wrapping where numpy's `int16` arithmetic overflows; floating-point values
are idealised as real numbers; Python exceptions become explicit outcome
constructors.
-/

namespace Twister

/-! ### Waveform word decoder (`Oscilloscope.get_waveform_words`) -/

/-- Wrap an integer into the two's-complement `int16` range `[-32768, 32767]`,
the way numpy wraps on `int16` overflow. -/
def int16wrap (x : Int) : Int := (x + 32768) % 65536 - 32768

/-- One decoded sample: `m = high.astype(int16) << 8` (wrapping in `int16`),
then `m + low` computed in `int16`. -/
def wordOf (high low : Nat) : Int :=
  int16wrap (int16wrap ((high : Int) * 256) + (low : Int))

/-- Elements at even positions, `np.take(waveform, np.arange(0, size, 2))`. -/
def evens : List Nat → List Nat
  | [] => []
  | [a] => [a]
  | a :: _ :: rest => a :: evens rest

/-- Elements at odd positions, `np.take(waveform, np.arange(1, size, 2))`. -/
def odds : List Nat → List Nat
  | [] => []
  | [_] => []
  | _ :: b :: rest => b :: odds rest

/-- `Oscilloscope.get_waveform_words` on one raw capture (a byte list): the
even-position (high) bytes and odd-position (low) bytes are combined
elementwise under numpy broadcasting.  Equal lengths combine pairwise; a
single low byte is broadcast over every high byte; a single high byte
against no low byte yields an empty result; any other shape mismatch is the
numpy broadcasting `ValueError`, modelled as `none`. -/
def get_waveform_words (raw : List Nat) : Option (List Int) :=
  let hs := evens raw
  let ls := odds raw
  if hs.length = ls.length then
    some ((hs.zip ls).map fun p => wordOf p.1 p.2)
  else
    match ls with
    | [] => if hs.length = 1 then some [] else none
    | [low] => some (hs.map fun h => wordOf h low)
    | _ :: _ :: _ => none

/-- Re-encode one signed 16-bit sample as its big-endian byte pair. -/
def encodeWord (v : Int) : List Nat :=
  [((v % 65536) / 256).toNat, (v % 65536 % 256).toNat]

/-- Re-encode a sample sequence back to a byte stream. -/
def encodeWords : List Int → List Nat
  | [] => []
  | v :: vs => encodeWord v ++ encodeWords vs

/-- Pairwise decode of an even-length byte stream, the reference shape the
broadcast pipeline reduces to on even input. -/
def pairMap : List Nat → List Int
  | [] => []
  | [_] => []
  | h :: l :: rest => wordOf h l :: pairMap rest

theorem evens_length : ∀ raw : List Nat, (evens raw).length = (raw.length + 1) / 2
  | [] => by simp [evens]
  | [_] => by simp [evens]
  | _ :: _ :: rest => by
      simp only [evens, List.length_cons, evens_length rest]
      omega

theorem odds_length : ∀ raw : List Nat, (odds raw).length = raw.length / 2
  | [] => by simp [odds]
  | [_] => by simp [odds]
  | _ :: _ :: rest => by
      simp only [odds, List.length_cons, odds_length rest]
      omega

theorem encodeWord_wordOf (h l : Nat) (hh : h < 256) (hl : l < 256) :
    encodeWord (wordOf h l) = [h, l] := by
  simp only [encodeWord, wordOf, int16wrap, List.cons.injEq, and_true]
  constructor
  · omega
  · omega

theorem get_waveform_words_even :
    ∀ raw : List Nat, raw.length % 2 = 0 →
      get_waveform_words raw = some (pairMap raw)
  | [] => fun _ => rfl
  | [_] => fun h => by simp at h
  | h :: l :: rest => by
      intro hev
      have hrest : rest.length % 2 = 0 := by
        have h2 := hev
        simp only [List.length_cons] at h2
        omega
      have hlen : (evens rest).length = (odds rest).length := by
        rw [evens_length, odds_length]; omega
      have ih := get_waveform_words_even rest hrest
      have ih' : List.map (fun p => wordOf p.1 p.2) ((evens rest).zip (odds rest))
          = pairMap rest := by
        simp only [get_waveform_words, if_pos hlen, Option.some.injEq] at ih
        exact ih
      have hlen2 : (evens (h :: l :: rest)).length = (odds (h :: l :: rest)).length := by
        show (h :: evens rest).length = (l :: odds rest).length
        simp [hlen]
      simp only [get_waveform_words, if_pos hlen2]
      show some (List.map (fun p => wordOf p.1 p.2)
        ((h :: evens rest).zip (l :: odds rest))) = _
      simp only [List.zip_cons_cons, List.map_cons, ih', pairMap]

theorem encodeWords_pairMap :
    ∀ raw : List Nat, raw.length % 2 = 0 → (∀ b ∈ raw, b < 256) →
      encodeWords (pairMap raw) = raw
  | [] => fun _ _ => rfl
  | [_] => fun h _ => by simp at h
  | h :: l :: rest => by
      intro hev hb
      have hrest : rest.length % 2 = 0 := by
        have h2 := hev
        simp only [List.length_cons] at h2
        omega
      have ih := encodeWords_pairMap rest hrest fun b hbm => hb b (by simp [hbm])
      simp [pairMap, encodeWords, ih,
        encodeWord_wordOf h l (hb h (by simp)) (hb l (by simp))]

/-- C2: decoding an even-length byte stream as big-endian signed 16-bit words
(as `get_waveform_words` does) and re-encoding every word as a big-endian
byte pair reproduces the original bytes exactly. -/
theorem get_waveform_words_roundtrip (raw : List Nat)
    (heven : raw.length % 2 = 0) (hbytes : ∀ b ∈ raw, b < 256) :
    get_waveform_words raw = some (pairMap raw) ∧
      encodeWords (pairMap raw) = raw :=
  ⟨get_waveform_words_even raw heven, encodeWords_pairMap raw heven hbytes⟩

/-- C2 witness: the round trip evaluated on the concrete capture
`[1, 255, 200, 7]`. -/
theorem get_waveform_words_roundtrip_witness :
    get_waveform_words [1, 255, 200, 7] = some (pairMap [1, 255, 200, 7]) ∧
      encodeWords (pairMap [1, 255, 200, 7]) = [1, 255, 200, 7] :=
  get_waveform_words_roundtrip [1, 255, 200, 7] (by decide)
    (by intro b hb; fin_cases hb <;> decide)

/-- C5 counterexample: the odd-length input `[0]` does not fail at all —
numpy broadcasts the single high byte against an empty low array and the
decoder returns an empty capture, so no `DecodeError` is raised. -/
theorem get_waveform_words_odd_singleton :
    get_waveform_words [0] = some [] := rfl

/-- C5 (amended): on odd-length input the decoder never raises a
`DecodeError` (no such type exists); instead length 1 silently yields an
empty capture, length 3 silently yields two samples that both reuse the
single low byte, and only lengths ≥ 5 fail, with a numpy broadcasting
`ValueError`. -/
theorem get_waveform_words_odd_behaviour :
    (∀ b : Nat, get_waveform_words [b] = some []) ∧
    (∀ b0 b1 b2 : Nat,
        get_waveform_words [b0, b1, b2] = some [wordOf b0 b1, wordOf b2 b1]) ∧
    (∀ raw : List Nat, raw.length % 2 = 1 → 5 ≤ raw.length →
        get_waveform_words raw = none) := by
  refine ⟨fun b => rfl, fun b0 b1 b2 => rfl, fun raw hodd hlen => ?_⟩
  have hes : (evens raw).length = (raw.length + 1) / 2 := evens_length raw
  have hos : (odds raw).length = raw.length / 2 := odds_length raw
  have hne : (evens raw).length ≠ (odds raw).length := by omega
  have h2 : 2 ≤ (odds raw).length := by omega
  simp only [get_waveform_words, if_neg hne]
  rcases hl : odds raw with _ | ⟨x, _ | ⟨y, t⟩⟩
  · rw [hl] at h2; simp at h2
  · rw [hl] at h2; simp at h2
  · rfl

/-- C5 amended-claim witness: the three behaviours at concrete inputs
`[9]`, `[1, 2, 3]` and `[0, 0, 0, 0, 0]`. -/
theorem get_waveform_words_odd_behaviour_witness :
    get_waveform_words [9] = some [] ∧
      get_waveform_words [1, 2, 3] = some [wordOf 1 2, wordOf 3 2] ∧
      get_waveform_words [0, 0, 0, 0, 0] = none :=
  ⟨get_waveform_words_odd_behaviour.1 9,
   get_waveform_words_odd_behaviour.2.1 1 2 3,
   get_waveform_words_odd_behaviour.2.2 [0, 0, 0, 0, 0] (by decide) (by decide)⟩

/-! ### Output interlock (`WaveformGenerator.enable_output`) -/

/-- AWG output-state SCPI write commands issued by `enable_output`. -/
inductive AwgCmd
  | outOn (channel : Nat)
  | outOff (channel : Nat)
  deriving DecidableEq

/-- The SCPI text of each modelled AWG command. -/
def AwgCmd.toSCPI : AwgCmd → String
  | .outOn ch => s!":OUTPut{ch}:STATe ON"
  | .outOff ch => s!":OUTPut{ch}:STATe OFF"

/-- How the protected block of a `with enable_output():` statement exits. -/
inductive BodyResult
  | normal
  | earlyReturn
  | raises
  deriving DecidableEq

/-- The exception propagated out of the scoped block, if any. -/
inductive AwgExn
  /-- the guard's `RuntimeError("Warning: Enable LO output before enabling AWG")` -/
  | interlockRuntimeError
  /-- whatever exception the protected operation raised mid-block -/
  | bodyExn
  deriving DecidableEq

/-- The guard `instanceN is not None and not instanceN.output_enabled()` for
one local-oscillator generator slot; `none` models an uninitialised module
instance.  The generator's `output_enabled` reply is modelled from the spec as
the prerequisite stage's boolean output state (its module,
`twister_api/signalgen_interface.py`, is not among the sources). -/
def loBlocked : Option Bool → Bool
  | some false => true
  | _ => false

/-- One full run of the `twister_api` `WaveformGenerator.enable_output`
context manager: if a registered LO is disabled, the guard raises before any
output-ON write, the `except RuntimeError` clause re-raises, and the `finally`
clause still writes the per-channel OFF commands; otherwise the ON writes
happen, the protected block runs, and the `finally` clause writes the OFF
commands on every exit path.  Returns the AWG write trace and the propagated
exception. -/
def enable_output_run (lo1 lo2 : Option Bool) (body : BodyResult) :
    List AwgCmd × Option AwgExn :=
  if loBlocked lo1 || loBlocked lo2 then
    ([.outOff 1, .outOff 3], some .interlockRuntimeError)
  else
    match body with
    | .normal => ([.outOn 1, .outOn 3, .outOff 1, .outOff 3], none)
    | .earlyReturn => ([.outOn 1, .outOn 3, .outOff 1, .outOff 3], none)
    | .raises => ([.outOn 1, .outOn 3, .outOff 1, .outOff 3], some .bodyExn)

/-- The pre-`twister_api` `enable_output` (`src/waveformgen_interface.py`):
same scoped pattern but with no interlock guard. -/
def enable_output_run_v0 (body : BodyResult) : List AwgCmd × Option AwgExn :=
  match body with
  | .normal => ([.outOn 1, .outOn 3, .outOff 1, .outOff 3], none)
  | .earlyReturn => ([.outOn 1, .outOn 3, .outOff 1, .outOff 3], none)
  | .raises => ([.outOn 1, .outOn 3, .outOff 1, .outOff 3], some .bodyExn)

/-- C6 counterexample: with LO generator 1 registered and disabled the guard
raises, yet the hardware write trace is not empty — the `finally` clause still
sends the two output-OFF state commands over the transport. -/
theorem enable_output_blocked_still_writes :
    enable_output_run (some false) none .normal
      = ([.outOff 1, .outOff 3], some .interlockRuntimeError) := rfl

/-- C6 (amended): for an instrument with registered prerequisites, the scoped
enable fails (with the guard's `RuntimeError`) iff at least one registered
prerequisite LO generator is currently disabled; in that failure case no
output-ON command is written, but the scoped teardown still writes the two
per-channel output-OFF commands before the exception propagates. -/
theorem enable_output_interlock (lo1 lo2 : Option Bool) (body : BodyResult)
    (hreg : lo1.isSome ∨ lo2.isSome) :
    ((enable_output_run lo1 lo2 body).2 = some .interlockRuntimeError ↔
      (lo1 = some false ∨ lo2 = some false)) ∧
    ((lo1 = some false ∨ lo2 = some false) →
      (enable_output_run lo1 lo2 body).1 = [.outOff 1, .outOff 3]) := by
  rcases lo1 with _ | _ | _ <;> rcases lo2 with _ | _ | _ <;> rcases body <;> decide

/-- C6 amended-claim witness: LO 1 registered and disabled, LO 2 registered
and enabled. -/
theorem enable_output_interlock_witness :
    ((enable_output_run (some false) (some true) .normal).2
        = some .interlockRuntimeError ↔
      ((some false : Option Bool) = some false ∨
        (some true : Option Bool) = some false)) ∧
    (((some false : Option Bool) = some false ∨
        (some true : Option Bool) = some false) →
      (enable_output_run (some false) (some true) .normal).1
        = [.outOff 1, .outOff 3]) :=
  enable_output_interlock (some false) (some true) .normal (Or.inl rfl)

/-- C7: on every exit path of the scoped output-enable block — normal
completion, early return, or an exception raised by the protected operation
mid-block — each per-channel output-OFF command is written exactly once, as
the final two commands of the trace, in both versions of `enable_output`; the
teardown is never guarded by any precondition. -/
theorem enable_output_off_exactly_once (lo1 lo2 : Option Bool) (body : BodyResult) :
    ((enable_output_run lo1 lo2 body).1.count (.outOff 1) = 1 ∧
     (enable_output_run lo1 lo2 body).1.count (.outOff 3) = 1 ∧
     (enable_output_run lo1 lo2 body).1.drop
        ((enable_output_run lo1 lo2 body).1.length - 2) = [.outOff 1, .outOff 3]) ∧
    ((enable_output_run_v0 body).1.count (.outOff 1) = 1 ∧
     (enable_output_run_v0 body).1.count (.outOff 3) = 1 ∧
     (enable_output_run_v0 body).1.drop
        ((enable_output_run_v0 body).1.length - 2) = [.outOff 1, .outOff 3]) := by
  rcases lo1 with _ | _ | _ <;> rcases lo2 with _ | _ | _ <;> rcases body <;> decide

/-! ### Error monitor and transport traces -/

/-- Outcome of one `check_instrument_errors` run. -/
inductive CheckResult
  /-- the loop hit a "no error" reply and `break`s -/
  | ok
  /-- the loop hit a faulty reply and `exit()`s (a raised `SystemExit`) -/
  | fault
  /-- the scripted reply list ran out (the loop would keep querying) -/
  | exhausted
  deriving DecidableEq

/-- `check_instrument_errors`, the shared shape of
`Oscilloscope.check_instrument_errors` and the `twister_api`
`WaveformGenerator.check_instrument_errors`: repeatedly query the error queue
(the scripted `responses` list supplies each reply in order).  A non-empty
reply whose first two characters are not `"0,"` is a fault: with
`exitOnError` set the loop terminates by `exit()`, otherwise the fault is
printed and the loop queries again.  An empty reply is treated the same way.
A reply starting with `"0,"` ("no error") breaks the loop normally.  Returns
the outcome and the number of error-queue queries issued. -/
def check_instrument_errors : List String → Bool → CheckResult × Nat
  | [], _ => (.exhausted, 0)
  | r :: rest, exitOnError =>
    if r ≠ "" then
      if r.take 2 ≠ "0," then
        if exitOnError then (.fault, 1)
        else ((check_instrument_errors rest exitOnError).1,
              (check_instrument_errors rest exitOnError).2 + 1)
      else (.ok, 1)
    else
      if exitOnError then (.fault, 1)
      else ((check_instrument_errors rest exitOnError).1,
            (check_instrument_errors rest exitOnError).2 + 1)

/-- C8: with the default fail-fast flag (`exit_on_error=True`), the error
monitor raises a typed fault (`exit()`, a `SystemExit`) on the first response
that is non-empty and does not begin with `"0,"`, after exactly one
error-queue query — it never queries again to drain further entries — and it
returns normally, also after exactly one query, when the first response
begins with `"0,"`. -/
theorem check_instrument_errors_fail_fast :
    (∀ (r : String) (rest : List String), r ≠ "" → r.take 2 ≠ "0," →
        check_instrument_errors (r :: rest) true = (.fault, 1)) ∧
    (∀ (r : String) (rest : List String), r.take 2 = "0," →
        check_instrument_errors (r :: rest) true = (.ok, 1)) := by
  constructor
  · intro r rest h1 h2
    simp [check_instrument_errors, h1, h2]
  · intro r rest h2
    have h1 : r ≠ "" := by
      intro h
      rw [h] at h2
      exact absurd h2 (by decide)
    simp [check_instrument_errors, h1, h2]

/-- C8 witness: a faulty first reply (a real Keysight error string) raises at
once; a "no error" first reply returns normally — each with a single query,
whatever responses follow. -/
theorem check_instrument_errors_fail_fast_witness :
    check_instrument_errors ["-222,Data out of range", "0,No error"] true
        = (.fault, 1) ∧
      check_instrument_errors ["0,No error"] true = (.ok, 1) :=
  ⟨check_instrument_errors_fail_fast.1 "-222,Data out of range" ["0,No error"]
      (by decide) (by decide),
   check_instrument_errors_fail_fast.2 "0,No error" [] (by decide)⟩

/-- One operation on the underlying VISA transport link. -/
inductive VisaOp
  | write (command : String)
  | query (command : String)
  deriving DecidableEq

/-- The error-queue query operations issued by one `check_instrument_errors`
run, `errorQuery` being the instrument's error-queue SCPI query string. -/
def checkOps (errorQuery : String) (responses : List String) (exitOnError : Bool) :
    List VisaOp :=
  List.replicate (check_instrument_errors responses exitOnError).2
    (.query errorQuery)

/-- `SignalGenerator.do_command`: a bare write; no error-queue check. -/
def sg_do_command (command : String) : List VisaOp := [.write command]

/-- `SignalGenerator.do_query`: a bare query; no error-queue check. -/
def sg_do_query (q : String) : List VisaOp := [.query q]

/-- `Oscilloscope.do_command`: write, then `check_instrument_errors` with the
default `exit_on_error=True`. -/
def osc_do_command (command : String) (responses : List String) : List VisaOp :=
  .write command :: checkOps ":SYSTem:ERRor? STRing" responses true

/-- `Oscilloscope.do_query`: query, then `check_instrument_errors` with the
default `exit_on_error=True`, returning the reply stripped of trailing
whitespace. -/
def osc_do_query (q : String) (responses : List String) : List VisaOp :=
  .query q :: checkOps ":SYSTem:ERRor? STRing" responses true

/-- `twister_api` `WaveformGenerator.do_command`: write, then
`check_instrument_errors` with `exit_on_error=False`. -/
def awg_do_command (command : String) (responses : List String) : List VisaOp :=
  .write command :: checkOps ":SYSTem:ERRor?" responses false

/-- `twister_api` `WaveformGenerator.do_query`: a bare query — despite its
docstring ("Send a query, check for errors, return string"), no error-queue
check is performed. -/
def awg_do_query (q : String) : List VisaOp := [.query q]

theorem check_instrument_errors_true_one_query (r : String) (rest : List String) :
    (check_instrument_errors (r :: rest) true).2 = 1 := by
  by_cases h1 : r = "" <;> by_cases h2 : r.take 2 = "0," <;>
    simp [check_instrument_errors, h1, h2]

theorem check_instrument_errors_pos (r : String) (rest : List String) (b : Bool) :
    1 ≤ (check_instrument_errors (r :: rest) b).2 := by
  by_cases h1 : r = "" <;> by_cases h2 : r.take 2 = "0," <;> rcases b <;>
    simp [check_instrument_errors, h1, h2]

/-- C9 counterexample: the signal generator's `do_command` and `do_query`, and
the `twister_api` waveform generator's `do_query`, issue exactly the bare
write or query — no error-queue check follows on the transport. -/
theorem sg_transport_no_error_check :
    sg_do_command ":FREQuency:FIXed 1.0000000000000E10"
        = [.write ":FREQuency:FIXed 1.0000000000000E10"] ∧
      sg_do_query ":PHASe?" = [.query ":PHASe?"] ∧
      awg_do_query ":OUTPut1:STATe?" = [.query ":OUTPut1:STATe?"] :=
  ⟨rfl, rfl, rfl⟩

/-- C9 (amended): the oscilloscope's `do_command` and `do_query` each follow
their write/query immediately with an error-queue query (exactly one under
the default fail-fast flag), and the waveform generator's `do_command`
follows its write immediately with at least one error-queue query; but the
signal generator's `do_command` and `do_query`, and the waveform generator's
`do_query`, issue no error-queue check at all. -/
theorem error_check_coverage :
    (∀ (c r : String) (rest : List String),
        osc_do_command c (r :: rest)
          = [.write c, .query ":SYSTem:ERRor? STRing"]) ∧
    (∀ (q r : String) (rest : List String),
        osc_do_query q (r :: rest)
          = [.query q, .query ":SYSTem:ERRor? STRing"]) ∧
    (∀ (c r : String) (rest : List String),
        (awg_do_command c (r :: rest)).head? = some (.write c) ∧
        (awg_do_command c (r :: rest)).tail.head?
          = some (.query ":SYSTem:ERRor?")) ∧
    (∀ c : String, sg_do_command c = [.write c]) ∧
    (∀ q : String, sg_do_query q = [.query q]) ∧
    (∀ q : String, awg_do_query q = [.query q]) := by
  refine ⟨fun c r rest => ?_, fun q r rest => ?_, fun c r rest => ?_,
    fun c => rfl, fun q => rfl, fun q => rfl⟩
  · simp [osc_do_command, checkOps, check_instrument_errors_true_one_query]
  · simp [osc_do_query, checkOps, check_instrument_errors_true_one_query]
  · have hpos := check_instrument_errors_pos r rest false
    obtain ⟨k, hk⟩ : ∃ k, (check_instrument_errors (r :: rest) false).2 = k + 1 :=
      ⟨(check_instrument_errors (r :: rest) false).2 - 1, by omega⟩
    simp [awg_do_command, checkOps, hk, List.replicate_succ]

/-! ### Phase calibrator (`Utils.peak_phase`) -/

/-- The Keysight out-of-range sentinel reading `9.99999e37`. -/
noncomputable def saturatedSentinel : ℝ := 9.99999e37

/-- Python exceptions that `peak_phase` can produce. -/
inductive PyErr
  /-- `IndexError` from the generator-selection subscript, re-raised with the
  message naming `[1, 2]` as the valid indices -/
  | indexError
  /-- `ZeroDivisionError` from a float division by zero -/
  | zeroDivisionError
  /-- `ValueError` ("math domain error") from `acos`/`asin` outside `[-1, 1]` -/
  | valueError
  deriving DecidableEq

/-- How a `peak_phase` call terminates. -/
inductive PeakOutcome
  /-- a measurement equalled the sentinel: the function prints
  "Error measuring peak, measured signal saturated (adjust channel 1 scale)"
  and returns `None`, issuing no further phase command -/
  | saturatedReturn
  /-- the closed-form solve ran to completion and `psg.set_phase` was
  commanded with the given corrective value -/
  | commanded (v : ℝ)
  /-- an unhandled Python exception propagated -/
  | raised (e : PyErr)

/-- The two analog signal generators held by `Utils`. -/
inductive Psg
  | psg1
  | psg2
  deriving DecidableEq

/-- The subscript `[self.psg1, self.psg2][psg_to_adjust - 1]` under Python
list-indexing semantics: indices `0` and `1` count from the front, `-1` and
`-2` from the back, anything else is an `IndexError`. -/
def selectPsg (psg_to_adjust : Int) : Option Psg :=
  let i := psg_to_adjust - 1
  if i = 0 ∨ i = -2 then some .psg1
  else if i = 1 ∨ i = -1 then some .psg2
  else none

/-- The line `w = acos((p1+p3)/(2*p2))/diff_step` of `peak_phase`. -/
noncomputable def codeW (p1 p2 p3 diff_step : ℝ) : ℝ :=
  Real.arccos ((p1 + p3) / (2 * p2)) / diff_step

/-- The line `A = sqrt(p1**2 + ((p2-p1*cos(w))/sin(w))**2)` of `peak_phase`
(note: the code uses `cos(w)`/`sin(w)`, not `cos(w*diff_step)`). -/
noncomputable def codeA (p1 p2 p3 diff_step : ℝ) : ℝ :=
  Real.sqrt (p1 ^ 2 +
    ((p2 - p1 * Real.cos (codeW p1 p2 p3 diff_step)) /
      Real.sin (codeW p1 p2 p3 diff_step)) ^ 2)

/-- The measurement-and-solve body of `Utils.peak_phase`, as a function of
the three peak-to-peak readings `p1, p2, p3` (each the `float(...)` of a
scope query) and of `diff_step`.  Python's partial operations are explicit:
`x / y` raises `ZeroDivisionError` when `y == 0.0`, and `math.acos` /
`math.asin` raise `ValueError` ("math domain error") outside `[-1, 1]`. -/
noncomputable def peak_phase_solve (p1 p2 p3 diff_step : ℝ) : PeakOutcome :=
  if p1 = saturatedSentinel ∨ p2 = saturatedSentinel ∨ p3 = saturatedSentinel then
    .saturatedReturn
  else if 2 * p2 = 0 then .raised .zeroDivisionError
  else if (p1 + p3) / (2 * p2) < -1 ∨ 1 < (p1 + p3) / (2 * p2) then
    .raised .valueError
  else if diff_step = 0 then .raised .zeroDivisionError
  else if Real.sin (codeW p1 p2 p3 diff_step) = 0 then .raised .zeroDivisionError
  else if codeA p1 p2 p3 diff_step = 0 then .raised .zeroDivisionError
  else if p1 / codeA p1 p2 p3 diff_step < -1 ∨ 1 < p1 / codeA p1 p2 p3 diff_step then
    .raised .valueError
  else .commanded (Real.pi / 2 - Real.arcsin (p1 / codeA p1 p2 p3 diff_step))

/-- `Utils.peak_phase`: select the target generator (possibly re-raising an
`IndexError`), set its phase reference, take the three phase-stepped readings
(supplied here as `p1, p2, p3`), and run the closed-form solve.  Returns the
selected generator (when the subscript succeeded) and the outcome. -/
noncomputable def peak_phase (psg_to_adjust : Int) (p1 p2 p3 diff_step : ℝ) :
    Option Psg × PeakOutcome :=
  match selectPsg psg_to_adjust with
  | none => (none, .raised .indexError)
  | some g => (some g, peak_phase_solve p1 p2 p3 diff_step)

/-- C10: `peak_phase` with `psg_to_adjust = 0` raises no `IndexError` — the
subscript index `0 - 1 = -1` selects signal generator 2 by Python negative
indexing and the calibration proceeds against it; the subscript raises
`IndexError` exactly when `psg_to_adjust - 1` falls outside `[-2, 1]`. -/
theorem peak_phase_zero_selects_psg2 :
    (∀ p1 p2 p3 step : ℝ, (peak_phase 0 p1 p2 p3 step).1 = some Psg.psg2) ∧
    (∀ n : Int, selectPsg n = none ↔ (n - 1 < -2 ∨ 1 < n - 1)) := by
  constructor
  · intro p1 p2 p3 step
    rfl
  · intro n
    simp only [selectPsg]
    by_cases h1 : n - 1 = 0 ∨ n - 1 = -2
    · rw [if_pos h1]
      simp only [reduceCtorEq, false_iff]
      omega
    · rw [if_neg h1]
      by_cases h2 : n - 1 = 1 ∨ n - 1 = -1
      · rw [if_pos h2]
        simp only [reduceCtorEq, false_iff]
        omega
      · rw [if_neg h2]
        simp only [true_iff]
        omega

/-- C3 counterexample: with the first reading equal to the sentinel
`9.99999e37`, `peak_phase` returns normally — it prints a saturation message
and yields `None` — rather than raising; no `SaturatedSignalError` exception
type exists in the code. -/
theorem peak_phase_saturated_returns :
    peak_phase 1 9.99999e37 1 1 (Real.pi / 8)
      = (some Psg.psg1, PeakOutcome.saturatedReturn) := by
  have hsel : selectPsg 1 = some Psg.psg1 := rfl
  have hsat : (9.99999e37 : ℝ) = saturatedSentinel := rfl
  simp [peak_phase, hsel, peak_phase_solve, hsat]

/-- C3 (amended): whenever the generator subscript succeeds and any of the
three readings equals the out-of-range sentinel `9.99999e37`, `peak_phase`
prints a saturation message and returns early with no result and no raised
exception; no corrective phase is commanded. -/
theorem peak_phase_sentinel_early_return (n : Int) (g : Psg) (p1 p2 p3 step : ℝ)
    (hsel : selectPsg n = some g)
    (hsat : p1 = saturatedSentinel ∨ p2 = saturatedSentinel ∨ p3 = saturatedSentinel) :
    peak_phase n p1 p2 p3 step = (some g, PeakOutcome.saturatedReturn) := by
  simp [peak_phase, hsel, peak_phase_solve, hsat]

/-- C3 amended-claim witness: the sentinel in the second reading, adjusting
generator 2. -/
theorem peak_phase_sentinel_early_return_witness :
    peak_phase 2 1 9.99999e37 1 1 = (some Psg.psg2, PeakOutcome.saturatedReturn) :=
  peak_phase_sentinel_early_return 2 Psg.psg2 1 9.99999e37 1 1 rfl
    (Or.inr (Or.inl rfl))

/-- C4 counterexample: at readings `(1, 0, 1)` — so `p2 = 0` — `peak_phase`
propagates an unhandled `ZeroDivisionError` from `(p1+p3)/(2*p2)`; there is
no `IllConditionedFit` exception anywhere in the code. -/
theorem peak_phase_p2_zero_div_error :
    peak_phase 1 1 0 1 (Real.pi / 8)
      = (some Psg.psg1, PeakOutcome.raised PyErr.zeroDivisionError) := by
  have hsel : selectPsg 1 = some Psg.psg1 := rfl
  have hs : ¬((1 : ℝ) = saturatedSentinel ∨ (0 : ℝ) = saturatedSentinel ∨
      (1 : ℝ) = saturatedSentinel) := by
    norm_num [saturatedSentinel]
  simp [peak_phase, hsel, peak_phase_solve, hs]

/-- C4 (amended): `peak_phase` indeed never lets a not-a-number result
propagate in these edge cases, but what it fails with is an unhandled Python
`ZeroDivisionError` (float division by zero) rather than an
`IllConditionedFit`, which does not exist: (a) whenever `p2 = 0` (and no
reading is the sentinel) the very first division raises; (b) whenever the
computed `w` satisfies `sin w = 0` (e.g. `w` a multiple of π) and the earlier
steps pass, the amplitude division raises. -/
theorem peak_phase_ill_conditioned_zero_div :
    (∀ p1 p3 step : ℝ,
        ¬(p1 = saturatedSentinel ∨ (0 : ℝ) = saturatedSentinel ∨
            p3 = saturatedSentinel) →
        peak_phase_solve p1 0 p3 step = PeakOutcome.raised PyErr.zeroDivisionError) ∧
    (∀ p1 p2 p3 step : ℝ,
        ¬(p1 = saturatedSentinel ∨ p2 = saturatedSentinel ∨
            p3 = saturatedSentinel) →
        2 * p2 ≠ 0 →
        ¬((p1 + p3) / (2 * p2) < -1 ∨ 1 < (p1 + p3) / (2 * p2)) →
        step ≠ 0 →
        Real.sin (codeW p1 p2 p3 step) = 0 →
        peak_phase_solve p1 p2 p3 step = PeakOutcome.raised PyErr.zeroDivisionError) := by
  constructor
  · intro p1 p3 step hs
    simp [peak_phase_solve, hs]
  · intro p1 p2 p3 step hs h2 hdom hstep hsin
    simp [peak_phase_solve, hs, h2, hdom, hstep, hsin]

/-- C4 amended-claim witness: readings `(2, 0, 3)` hit the `p2 = 0` division;
readings `(1, 1, 1)` give `acos(1) = 0`, so `w = 0` and `sin w = 0` hits the
amplitude division. -/
theorem peak_phase_ill_conditioned_zero_div_witness :
    peak_phase_solve 2 0 3 1 = PeakOutcome.raised PyErr.zeroDivisionError ∧
      peak_phase_solve 1 1 1 1 = PeakOutcome.raised PyErr.zeroDivisionError := by
  constructor
  · exact peak_phase_ill_conditioned_zero_div.1 2 3 1
      (by norm_num [saturatedSentinel])
  · refine peak_phase_ill_conditioned_zero_div.2 1 1 1 1
      (by norm_num [saturatedSentinel]) (by norm_num) (by norm_num) (by norm_num) ?_
    rw [codeW, show ((1 : ℝ) + 1) / (2 * 1) = 1 by norm_num, Real.arccos_one]
    simp

/-- The noiseless synthetic reading `A*sin(w*x + phi)` at probe offset `x`,
for the spec's example parameters `A = 2, w = 1, phi = 0.3`. -/
noncomputable def exampleReading (x : ℝ) : ℝ := 2 * Real.sin (1 * x + 3 / 10)

theorem exampleReading_lt_sentinel (x : ℝ) : exampleReading x < saturatedSentinel := by
  have h := Real.sin_le_one (1 * x + 3 / 10)
  have h2 : exampleReading x ≤ 2 := by
    simp only [exampleReading]
    linarith
  have hsent : (2 : ℝ) < saturatedSentinel := by norm_num [saturatedSentinel]
  linarith

theorem example_p2_pos : 0 < exampleReading (Real.pi / 8) := by
  simp only [exampleReading, one_mul]
  have h1 : 0 < Real.pi / 8 + 3 / 10 := by positivity
  have h2 : Real.pi / 8 + 3 / 10 < Real.pi := by
    have := Real.pi_gt_three
    linarith
  have := Real.sin_pos_of_pos_of_lt_pi h1 h2
  linarith

theorem example_p1_pos : 0 < exampleReading 0 := by
  simp only [exampleReading, one_mul, mul_zero, zero_add]
  have h1 : 0 < (3 : ℝ) / 10 := by norm_num
  have h2 : (3 : ℝ) / 10 < Real.pi := by
    have := Real.pi_gt_three
    linarith
  have := Real.sin_pos_of_pos_of_lt_pi h1 h2
  linarith

theorem example_sum :
    exampleReading 0 + exampleReading (Real.pi / 4)
      = 2 * exampleReading (Real.pi / 8) * Real.cos (Real.pi / 8) := by
  have k1 : Real.sin (Real.pi / 4 + 3 / 10)
      = Real.sin (Real.pi / 8 + 3 / 10) * Real.cos (Real.pi / 8)
        + Real.cos (Real.pi / 8 + 3 / 10) * Real.sin (Real.pi / 8) := by
    rw [show Real.pi / 4 + (3 : ℝ) / 10 = (Real.pi / 8 + 3 / 10) + Real.pi / 8 by ring,
      Real.sin_add]
  have k2 : Real.sin ((3 : ℝ) / 10)
      = Real.sin (Real.pi / 8 + 3 / 10) * Real.cos (Real.pi / 8)
        - Real.cos (Real.pi / 8 + 3 / 10) * Real.sin (Real.pi / 8) := by
    conv_lhs => rw [show (3 : ℝ) / 10 = (Real.pi / 8 + 3 / 10) - Real.pi / 8 by ring]
    rw [Real.sin_sub]
  simp only [exampleReading, one_mul, mul_zero, zero_add]
  linarith [k1, k2]

theorem example_sum_div :
    (exampleReading 0 + exampleReading (Real.pi / 4)) / (2 * exampleReading (Real.pi / 8))
      = Real.cos (Real.pi / 8) := by
  rw [example_sum]
  have hne : 2 * exampleReading (Real.pi / 8) ≠ 0 := by
    have := example_p2_pos
    positivity
  rw [mul_comm (2 * exampleReading (Real.pi / 8)) (Real.cos (Real.pi / 8)),
    mul_div_assoc, div_self hne, mul_one]

theorem example_codeW_eq :
    codeW (exampleReading 0) (exampleReading (Real.pi / 8))
        (exampleReading (Real.pi / 4)) (Real.pi / 8) = 1 := by
  rw [codeW, example_sum_div,
    Real.arccos_cos (by positivity) (by linarith [Real.pi_pos])]
  exact div_self (by positivity)

theorem example_sin_one_pos : 0 < Real.sin 1 :=
  Real.sin_pos_of_pos_of_lt_pi one_pos (by linarith [Real.pi_gt_three])

/-- The amplitude value the code computes on the example readings, with
`cos 1` and `sin 1` where the fitted model calls for `cos (π/8)` and
`sin (π/8)`. -/
noncomputable def exampleCodeAmp : ℝ :=
  Real.sqrt ((exampleReading 0) ^ 2 +
    ((exampleReading (Real.pi / 8) - exampleReading 0 * Real.cos 1) / Real.sin 1) ^ 2)

theorem example_codeA_eq :
    codeA (exampleReading 0) (exampleReading (Real.pi / 8))
        (exampleReading (Real.pi / 4)) (Real.pi / 8) = exampleCodeAmp := by
  rw [codeA, example_codeW_eq, exampleCodeAmp]

theorem example_codeAmp_pos : 0 < exampleCodeAmp := by
  rw [exampleCodeAmp]
  apply Real.sqrt_pos.mpr
  have h1 : 0 < (exampleReading 0) ^ 2 := pow_pos example_p1_pos 2
  have h2 : 0 ≤ ((exampleReading (Real.pi / 8) - exampleReading 0 * Real.cos 1) /
      Real.sin 1) ^ 2 := sq_nonneg _
  linarith

theorem example_p1_le_codeAmp : exampleReading 0 ≤ exampleCodeAmp := by
  have hle : (exampleReading 0) ^ 2 ≤ (exampleReading 0) ^ 2 +
      ((exampleReading (Real.pi / 8) - exampleReading 0 * Real.cos 1) /
        Real.sin 1) ^ 2 :=
    le_add_of_nonneg_right (sq_nonneg _)
  have h1 : Real.sqrt ((exampleReading 0) ^ 2) ≤ exampleCodeAmp := by
    rw [exampleCodeAmp]
    exact Real.sqrt_le_sqrt hle
  rwa [Real.sqrt_sq example_p1_pos.le] at h1

theorem example_codeAmp_ne_two : exampleCodeAmp ≠ 2 := by
  intro hA2
  have hp1 : exampleReading 0 = 2 * Real.sin (3 / 10) := by
    simp [exampleReading]
  have hp2 : exampleReading (Real.pi / 8) = 2 * Real.sin (Real.pi / 8 + 3 / 10) := by
    simp [exampleReading]
  have hsin1 := example_sin_one_pos
  have hS : (exampleReading 0) ^ 2 +
      ((exampleReading (Real.pi / 8) - exampleReading 0 * Real.cos 1) / Real.sin 1) ^ 2
        = 4 := by
    have hnn : (0 : ℝ) ≤ (exampleReading 0) ^ 2 +
        ((exampleReading (Real.pi / 8) - exampleReading 0 * Real.cos 1) /
          Real.sin 1) ^ 2 := by positivity
    have := Real.sq_sqrt hnn
    rw [← exampleCodeAmp] at this
    rw [← this, hA2]
    norm_num
  set t : ℝ := (exampleReading (Real.pi / 8) - exampleReading 0 * Real.cos 1) /
      Real.sin 1 with htdef
  have hts : t * Real.sin 1 = exampleReading (Real.pi / 8) -
      exampleReading 0 * Real.cos 1 := by
    rw [htdef]
    field_simp
  have hsc := Real.sin_sq_add_cos_sq ((3 : ℝ) / 10)
  have ht2 : t ^ 2 = (2 * Real.cos (3 / 10)) ^ 2 := by
    rw [hp1] at hS
    nlinarith [hS, hsc]
  have hfac : (t - 2 * Real.cos (3 / 10)) * (t + 2 * Real.cos (3 / 10)) = 0 := by
    nlinarith [ht2]
  have hp2pos : 0 < Real.sin (Real.pi / 8 + 3 / 10) := by
    have h1 : 0 < Real.pi / 8 + 3 / 10 := by positivity
    have h2 : Real.pi / 8 + 3 / 10 < Real.pi := by linarith [Real.pi_gt_three]
    exact Real.sin_pos_of_pos_of_lt_pi h1 h2
  rcases mul_eq_zero.mp hfac with hc | hc
  · -- t = 2*cos(3/10): the readings would satisfy sin(π/8+0.3) = sin(1.3)
    have ht : t = 2 * Real.cos (3 / 10) := by linarith [sub_eq_zero.mp hc]
    have heq : Real.sin (Real.pi / 8 + 3 / 10) = Real.sin (3 / 10 + 1) := by
      conv_rhs => rw [Real.sin_add]
      rw [ht, hp1, hp2] at hts
      linarith [hts]
    have hmem1 : Real.pi / 8 + 3 / 10 ∈ Set.Icc (-(Real.pi / 2)) (Real.pi / 2) := by
      constructor
      · have := Real.pi_pos
        linarith
      · have := Real.pi_gt_three
        linarith
    have hmem2 : (3 : ℝ) / 10 + 1 ∈ Set.Icc (-(Real.pi / 2)) (Real.pi / 2) := by
      constructor
      · have := Real.pi_pos
        linarith
      · have := Real.pi_gt_three
        linarith
    have harg := Real.injOn_sin hmem1 hmem2 heq
    have := Real.pi_le_four
    linarith
  · -- t = -2*cos(3/10): the readings would satisfy sin(π/8+0.3) = sin(-0.7) < 0
    have ht : t = -(2 * Real.cos (3 / 10)) := by linarith [add_eq_zero_iff_eq_neg.mp hc]
    have heq : Real.sin (Real.pi / 8 + 3 / 10) = Real.sin (3 / 10 - 1) := by
      conv_rhs => rw [Real.sin_sub]
      rw [ht, hp1, hp2] at hts
      linarith [hts]
    have hneg : Real.sin ((3 : ℝ) / 10 - 1) < 0 := by
      rw [show (3 : ℝ) / 10 - 1 = -(7 / 10) by norm_num, Real.sin_neg]
      have h1 : 0 < (7 : ℝ) / 10 := by norm_num
      have h2 : (7 : ℝ) / 10 < Real.pi := by linarith [Real.pi_gt_three]
      have := Real.sin_pos_of_pos_of_lt_pi h1 h2
      linarith
    linarith

theorem example_arcsin_ne :
    Real.arcsin (exampleReading 0 / exampleCodeAmp) ≠ 3 / 10 := by
  intro h
  have hApos := example_codeAmp_pos
  have hb2 : exampleReading 0 / exampleCodeAmp ≤ 1 :=
    (div_le_one hApos).mpr example_p1_le_codeAmp
  have hb1 : -1 ≤ exampleReading 0 / exampleCodeAmp := by
    have : 0 ≤ exampleReading 0 / exampleCodeAmp :=
      div_nonneg example_p1_pos.le hApos.le
    linarith
  have hsin := congrArg Real.sin h
  rw [Real.sin_arcsin hb1 hb2] at hsin
  have hp1 : exampleReading 0 = 2 * Real.sin (3 / 10) := by
    simp [exampleReading]
  have hsin310 : 0 < Real.sin ((3 : ℝ) / 10) := by
    have h1 : 0 < (3 : ℝ) / 10 := by norm_num
    have h2 : (3 : ℝ) / 10 < Real.pi := by linarith [Real.pi_gt_three]
    exact Real.sin_pos_of_pos_of_lt_pi h1 h2
  have hA2 : exampleCodeAmp = 2 := by
    have hmul : exampleReading 0 = Real.sin (3 / 10) * exampleCodeAmp := by
      field_simp at hsin
      linarith [hsin]
    rw [hp1] at hmul
    have := mul_left_cancel₀ (ne_of_gt hsin310)
      (show Real.sin (3 / 10) * exampleCodeAmp = Real.sin (3 / 10) * 2 by linarith)
    linarith
  exact example_codeAmp_ne_two hA2

/-- C1 (code bug): on the spec's noiseless example (`A = 2, w = 1, phi = 0.3,
step = π/8`) the closed-form solve runs to completion and commands
`π/2 - asin(p1/Â)`, where `Â` is computed from `cos w`/`sin w` instead of the
fitted model's `cos (w*step)`/`sin (w*step)` — and that commanded value is
provably different from the claimed corrective phase `π/2 - phi = π/2 - 0.3`. -/
theorem peak_phase_example_misses_expected :
    peak_phase 1 (exampleReading 0) (exampleReading (Real.pi / 8))
        (exampleReading (Real.pi / 4)) (Real.pi / 8)
      = (some Psg.psg1, PeakOutcome.commanded
          (Real.pi / 2 - Real.arcsin (exampleReading 0 / exampleCodeAmp))) ∧
    Real.pi / 2 - Real.arcsin (exampleReading 0 / exampleCodeAmp)
      ≠ Real.pi / 2 - 3 / 10 := by
  constructor
  · have hsel : selectPsg 1 = some Psg.psg1 := rfl
    have hs : ¬(exampleReading 0 = saturatedSentinel ∨
        exampleReading (Real.pi / 8) = saturatedSentinel ∨
        exampleReading (Real.pi / 4) = saturatedSentinel) := by
      push_neg
      exact ⟨ne_of_lt (exampleReading_lt_sentinel 0),
        ne_of_lt (exampleReading_lt_sentinel (Real.pi / 8)),
        ne_of_lt (exampleReading_lt_sentinel (Real.pi / 4))⟩
    have h2 : 2 * exampleReading (Real.pi / 8) ≠ 0 := by
      have := example_p2_pos
      positivity
    have hdom : ¬((exampleReading 0 + exampleReading (Real.pi / 4)) /
          (2 * exampleReading (Real.pi / 8)) < -1 ∨
        1 < (exampleReading 0 + exampleReading (Real.pi / 4)) /
          (2 * exampleReading (Real.pi / 8))) := by
      rw [example_sum_div]
      push_neg
      exact ⟨Real.neg_one_le_cos _, Real.cos_le_one _⟩
    have hstep : Real.pi / 8 ≠ 0 := by positivity
    have hsinw : ¬(Real.sin (codeW (exampleReading 0) (exampleReading (Real.pi / 8))
        (exampleReading (Real.pi / 4)) (Real.pi / 8)) = 0) := by
      rw [example_codeW_eq]
      exact ne_of_gt example_sin_one_pos
    have hA : ¬(exampleCodeAmp = 0) := ne_of_gt example_codeAmp_pos
    have hasin : ¬(exampleReading 0 / exampleCodeAmp < -1 ∨
        1 < exampleReading 0 / exampleCodeAmp) := by
      push_neg
      constructor
      · have : 0 ≤ exampleReading 0 / exampleCodeAmp :=
          div_nonneg example_p1_pos.le example_codeAmp_pos.le
        linarith
      · exact (div_le_one example_codeAmp_pos).mpr example_p1_le_codeAmp
    have hbody : peak_phase_solve (exampleReading 0) (exampleReading (Real.pi / 8))
        (exampleReading (Real.pi / 4)) (Real.pi / 8)
          = PeakOutcome.commanded
            (Real.pi / 2 - Real.arcsin (exampleReading 0 / exampleCodeAmp)) := by
      rw [peak_phase_solve, if_neg hs, if_neg h2, if_neg hdom, if_neg hstep,
        if_neg hsinw, example_codeA_eq, if_neg hA, if_neg hasin]
    show (some Psg.psg1, peak_phase_solve (exampleReading 0)
        (exampleReading (Real.pi / 8)) (exampleReading (Real.pi / 4))
        (Real.pi / 8)) = _
    rw [hbody]
  · intro h
    apply example_arcsin_ne
    linarith

end Twister
